import Mathlib

/-!
Shallow embedding of the rumax messaging-client core (session multiplexer and
dual transport layer) and proofs about its documented behaviour.

The definitions below are translated from the Rust sources:
  - src/lib.rs          : MaxClient, ClientState, connect, disconnect,
                          send_frame, send_and_wait, read_task
  - src/errors.rs       : the Error enum
  - src/models.rs       : Request and Response records
  - src/constants.rs    : Constants
  - src/transport/mobile.rs : MobileWriter::send, MobileReader::next_message,
                          msgpack_to_json
  - src/transport/web.rs    : WebReader::next_message
  - src/api/auth.rs     : check_code token handling
  - src/api/telemetry.rs: spawn_telemetry_task control flow

Machine integers are modelled as Nat with explicit `% 2 ^ w` where the Rust
code narrows; payload trees as an inductive JSON-like value; external effects
(the LZ4 decompressor, the MessagePack reader, clocks, random draws and the
scheduling of concurrent tasks) as explicit parameters or oracle functions.
-/

namespace Rumax

/-- Dynamic JSON-like payload tree (serde_json::Value as used by the core;
floating point numbers do not occur in any payload the claims touch and are
omitted). Object fields keep insertion order, like serde_json maps with the
fields observed here. -/
inductive JValue where
  | jnull
  | jbool (b : Bool)
  | jnum (n : Int)
  | jstr (s : String)
  | jarr (xs : List JValue)
  | jobj (fields : List (String × JValue))
deriving Repr

/-- serde_json::Value::get on a string key: a field lookup that returns an
Option and never panics; on a non-object it is None. -/
def JValue.getField : JValue → String → Option JValue
  | .jobj fields, k => fields.lookup k
  | _, _ => none

/-- serde_json::Value::as_str. -/
def JValue.asStr : JValue → Option String
  | .jstr s => some s
  | _ => none

/-- Error enum from src/errors.rs. `oneshotRecvError` is the variant produced
by the From conversion of tokio's oneshot RecvError (a dropped sender). -/
inductive Error where
  | notConnected
  | connectionFailed (detail : String)
  | connectionClosed (detail : String)
  | sendFailed (detail : String)
  | parseError (detail : String)
  | requestTimeout (ms : Nat)
  | apiResponse (payload : JValue)
  | oneshotRecvError
  | ioError (detail : String)
  | tauriError (detail : String)
  | otherError (detail : String)
deriving Repr

/-- Request record from src/models.rs; `ver` and `cmd` are u8, `opcode` u16
and `seq` u64 in the source, modelled as Nat with the width bounds stated at
each theorem. The payload bytes handed to the mobile framing are the
MessagePack encoding of `payload`, supplied separately where needed. -/
structure Request where
  ver : Nat
  cmd : Nat
  seq : Nat
  opcode : Nat
  payload : JValue
deriving Repr

/-- Response record from src/models.rs. -/
structure Response where
  ver : Nat
  cmd : Nat
  seq : Nat
  opcode : Nat
  payload : JValue
deriving Repr

/-- Constants::DEFAULT_TIMEOUT from src/constants.rs, in milliseconds
(Duration::from_millis(10000)). -/
def DEFAULT_TIMEOUT_MS : Nat := 10000

/-- Constants::PING_INTERVAL from src/constants.rs, in seconds. -/
def PING_INTERVAL_S : Nat := 30

/-! ## Session state (ClientState, src/lib.rs lines 36-49) -/

/-- ClientState from src/lib.rs. `writer` records presence of the boxed
transport writer (Option<Box<dyn TransportWriter>>); `pending` is the
seq → oneshot-sender table, with each sender identified by an abstract slot
id; `shutdownPresent` records whether `shutdown_tx` is Some. -/
structure ClientState where
  writer : Bool
  seq : Nat
  tempToken : Option String
  token : Option String
  pending : List (Nat × Nat)
  shutdownPresent : Bool
  userId : Option Nat
  actionId : Nat
  sessionId : Int
  deviceId : Option String
  mtInstance : Option String
  currentScreen : String
deriving Repr

/-- MaxClient::new (src/lib.rs lines 63-83): idle client, tokens cleared,
seq 0, `session_id` the current clock value, screen "chats_list_tab". -/
def ClientState.new (now : Int) : ClientState :=
  { writer := false, seq := 0, tempToken := none, token := none,
    pending := [], shutdownPresent := true, userId := none, actionId := 0,
    sessionId := now, deviceId := none, mtInstance := none,
    currentScreen := "chats_list_tab" }

/-! ## disconnect (src/lib.rs lines 190-208) -/

/-- Result of MaxClient::disconnect: the state afterwards, whether the
shutdown broadcast was actually sent, and the pending slots whose oneshot
senders were dropped by `pending.clear()`. -/
structure DisconnectResult where
  state : ClientState
  shutdownFired : Bool
  droppedSlots : List (Nat × Nat)
deriving Repr

/-- MaxClient::disconnect (src/lib.rs lines 190-208): takes the shutdown
sender and fires it when present, clears the writer, clears `pending`
(dropping every sender), clears `token` and `user_id`, resets `seq` to 0 and
refreshes `session_id` to the current clock value `now`. It does not touch
`temp_token`, `action_id`, `device_id`, `mt_instance` or `current_screen`. -/
def disconnect (s : ClientState) (now : Int) : DisconnectResult :=
  { state := { s with
      shutdownPresent := false,
      writer := false,
      pending := [],
      token := none,
      userId := none,
      seq := 0,
      sessionId := now },
    shutdownFired := s.shutdownPresent,
    droppedSlots := s.pending }

/-! ## send_and_wait (src/lib.rs lines 241-287) -/

/-- What a caller's oneshot receiver observes within the timeout window:
either the sender completed it with a result, or the sender was dropped
(tokio oneshot then yields RecvError). -/
inductive SlotResult where
  | completed (r : Except Error Response)
  | dropped
deriving Repr

/-- Outcome dispatch of send_and_wait once the oneshot receiver resolved
inside the 10 s window (src/lib.rs lines 267-280): a successful response
whose payload carries an `error` field becomes Error.apiResponse; a
transport error is passed through; a dropped sender becomes
Error.oneshotRecvError via the From conversion in src/errors.rs. -/
def await_slot : SlotResult → Except Error Response
  | .completed (.ok resp) =>
      if (resp.payload.getField "error").isSome then
        .error (.apiResponse resp.payload)
      else
        .ok resp
  | .completed (.error e) => .error e
  | .dropped => .error .oneshotRecvError

/-- Lock-held prologue of send_and_wait (src/lib.rs lines 249-263):
increment `seq`, register the oneshot sender (slot id) in `pending` under
the new value, and build the request with ver 11 and that seq. -/
def alloc_seq (s : ClientState) (slot : Nat) (opcode : Nat) (payload : JValue)
    (cmd : Nat) : ClientState × Request :=
  let currentSeq := s.seq + 1
  ({ s with seq := currentSeq, pending := (currentSeq, slot) :: s.pending },
   { ver := 11, cmd := cmd, seq := currentSeq, opcode := opcode,
     payload := payload })

/-- Iterated send_and_wait prologue: one allocation per call, in the order
the calls acquire the session lock; returns the allocated requests in that
order. -/
def alloc_seq_many (s : ClientState) :
    List (Nat × Nat × JValue × Nat) → ClientState × List Request
  | [] => (s, [])
  | (slot, opcode, payload, cmd) :: rest =>
      let (s1, r) := alloc_seq s slot opcode payload cmd
      let (s2, rs) := alloc_seq_many s1 rest
      (s2, r :: rs)

/-- Timeout branch of send_and_wait (src/lib.rs lines 281-285): remove the
request's slot from `pending` and return RequestTimeout with the default
timeout. `pending` holds at most one binding per key (HashMap). -/
def timeout_branch (pending : List (Nat × Nat)) (seq : Nat) :
    List (Nat × Nat) × Error :=
  (pending.filter (fun kv => kv.1 ≠ seq), .requestTimeout DEFAULT_TIMEOUT_MS)

/-! ## send_frame reconnect decision (src/lib.rs lines 210-239) -/

/-- What send_frame decides after inspecting the state under the lock:
send directly through the installed writer, reconnect once (connect is
called with is_mobile = true) and then send, or fail without sending. -/
inductive SendFrameAction where
  | sendDirect
  | reconnectThenSend (deviceId mtInstance : String) (isMobile : Bool)
  | failWithoutSending (e : Error)
deriving Repr

/-- Decision logic at the top of MaxClient::send_frame (src/lib.rs lines
213-230): with a writer installed the frame goes straight out; with no
writer and both identifiers stored, exactly one inline `connect(id, mt,
true)` precedes the send; otherwise the call returns
ConnectionFailed("Device ID not set") and nothing is sent. -/
def send_frame_decision (writer : Bool)
    (deviceId mtInstance : Option String) : SendFrameAction :=
  if writer then .sendDirect
  else
    match deviceId, mtInstance with
    | some id, some mt => .reconnectThenSend id mt true
    | _, _ => .failWithoutSending (.connectionFailed "Device ID not set")

/-! ## connect (src/lib.rs lines 101-188) -/

/-- State mutation performed by connect under the session lock (src/lib.rs
lines 129-150): store the device identifiers, refresh `session_id`, install
the writer and the fresh shutdown sender. Nothing else is touched there. -/
def connect_state_update (s : ClientState) (deviceId mtInstance : String)
    (now : Int) : ClientState :=
  { s with
    deviceId := some deviceId,
    mtInstance := some mtInstance,
    sessionId := now,
    writer := true,
    shutdownPresent := true }

/-- Whole-connect effect on the session state (src/lib.rs lines 101-188):
the locked update above followed by the handshake `send_and_wait(6, …, 0)`,
whose prologue allocates one sequence number and registers the handshake
slot. Returns the state once the handshake frame has been handed to the
writer, together with the handshake request. -/
def connect_full (s : ClientState) (deviceId mtInstance : String)
    (now : Int) (handshakeSlot : Nat) (handshakePayload : JValue) :
    ClientState × Request :=
  alloc_seq (connect_state_update s deviceId mtInstance now)
    handshakeSlot 6 handshakePayload 0

/-! ## MessagePack payload normalization (src/transport/mobile.rs lines
65-111) -/

/-- rmpv::Value as consumed by msgpack_to_json. `str` carries the result of
Utf8String::into_str (None for invalid UTF-8); `binary` carries the
from_utf8_lossy rendering of the byte block, applied at this boundary; the
F32/F64 float constructors never occur in any payload a claim touches and
are omitted. -/
inductive MpValue where
  | nil
  | boolean (b : Bool)
  | integer (v : Int)
  | str (s : Option String)
  | binary (lossy : String)
  | arr (xs : List MpValue)
  | mp (kvs : List (MpValue × MpValue))
  | ext (t : Int) (data : List Nat)
deriving Repr

/-- Rust's JS MAX_SAFE_INTEGER constant from msgpack_to_json
(2 ^ 53 - 1). -/
def MAX_SAFE_INT : Int := 9007199254740991

/-- Map-key conversion inside msgpack_to_json (src/transport/mobile.rs lines
99-104). -/
def mpKeyToString : MpValue → String
  | .str s => s.getD ""
  | .integer i => toString i
  | .boolean b => toString b
  | _ => "unknown"

/-- msgpack_to_json (src/transport/mobile.rs lines 65-111). The integer
branch follows the source exactly: `as_u64()` succeeds for 0 ≤ v < 2 ^ 64,
then values above MAX_SAFE_INT become decimal strings; otherwise `as_i64()`
succeeds for −2 ^ 63 ≤ v < 2 ^ 63 and values below −MAX_SAFE_INT become
decimal strings; anything else (unreachable for rmpv integers) is null. -/
def msgpack_to_json : MpValue → JValue
  | .nil => .jnull
  | .boolean b => .jbool b
  | .integer i =>
      if 0 ≤ i ∧ i < 2 ^ 64 then
        if i > MAX_SAFE_INT then .jstr (toString i) else .jnum i
      else if -(2 ^ 63) ≤ i ∧ i < 2 ^ 63 then
        if i < -MAX_SAFE_INT then .jstr (toString i) else .jnum i
      else .jnull
  | .str s => .jstr (s.getD "")
  | .binary lossy => .jstr lossy
  | .arr xs => .jarr (xs.attach.map (fun x => msgpack_to_json x.1))
  | .mp kvs =>
      .jobj (kvs.attach.map (fun kv => (mpKeyToString kv.1.1, msgpack_to_json kv.1.2)))
  | .ext _ _ => .jnull
decreasing_by
  · simp_wf
    have h := List.sizeOf_lt_of_mem x.2
    omega
  · simp_wf
    have h := List.sizeOf_lt_of_mem kv.2
    have h2 : sizeOf kv.1.2 < sizeOf kv.1 := by
      obtain ⟨⟨a, b⟩, hm⟩ := kv
      simp
    omega

/-! ## Mobile framing (src/transport/mobile.rs lines 154-250) -/

/-- Big-endian byte pair of a u16 (BytesMut::put_u16). -/
def be16 (n : Nat) : List Nat := [n / 2 ^ 8 % 2 ^ 8, n % 2 ^ 8]

/-- Big-endian byte quadruple of a u32 (BytesMut::put_u32). -/
def be32 (n : Nat) : List Nat :=
  [n / 2 ^ 24 % 2 ^ 8, n / 2 ^ 16 % 2 ^ 8, n / 2 ^ 8 % 2 ^ 8, n % 2 ^ 8]

/-- MobileWriter::send (src/transport/mobile.rs lines 160-182):
`payload_bytes` is the MessagePack encoding of the request payload (the
rmp_serde encoder is external). A payload over 0xFFFFFF bytes fails fast
with SendFailed before anything is written; otherwise the function writes
the 10-byte big-endian header — ver, cmd widened to u16, the low 8 bits of
seq, opcode, and packed_len = (len as u32) & 0xFFFFFF with comp_flag 0 —
followed by the payload bytes. -/
def mobile_send_bytes (r : Request) (payload_bytes : List Nat) :
    Except Error (List Nat) :=
  if payload_bytes.length > 0xFFFFFF then
    .error (.sendFailed "Payload too large")
  else
    .ok ([r.ver % 2 ^ 8] ++ be16 r.cmd ++ [r.seq % 2 ^ 8] ++ be16 r.opcode
         ++ be32 (payload_bytes.length % 2 ^ 24) ++ payload_bytes)

/-- Parsed mobile header fields as MobileReader::next_message extracts them
(src/transport/mobile.rs lines 199-206). -/
structure MobileHeader where
  ver : Nat
  cmd : Nat
  seq : Nat
  opcode : Nat
  compFlag : Nat
  payloadLen : Nat
deriving Repr

/-- Header parse of MobileReader::next_message (src/transport/mobile.rs
lines 199-206) on a 10-byte block: ver = byte 0, cmd = big-endian u16 of
bytes 1-2 then narrowed `as u8`, seq = byte 3, opcode = big-endian u16 of
bytes 4-5, comp_flag = upper 8 bits and payload_len = lower 24 bits of the
big-endian u32 of bytes 6-9. -/
def parse_mobile_header (h : List Nat) : Option MobileHeader :=
  match h with
  | [b0, b1, b2, b3, b4, b5, b6, b7, b8, b9] =>
      let cmd16 := b1 * 2 ^ 8 + b2
      let packed := b6 * 2 ^ 24 + b7 * 2 ^ 16 + b8 * 2 ^ 8 + b9
      some { ver := b0, cmd := cmd16 % 2 ^ 8, seq := b3,
             opcode := b4 * 2 ^ 8 + b5,
             compFlag := packed / 2 ^ 24, payloadLen := packed % 2 ^ 24 }
  | _ => none

/-- Payload handling of MobileReader::next_message after the header and the
payload bytes have been read (src/transport/mobile.rs lines 208-248). The
LZ4 block decompressor (called with max output size 5 MiB) and the rmpv
reader are external and passed as oracles returning their error strings.
payload_len = 0 and empty decompressed bytes yield a null payload; an LZ4 or
MessagePack failure is surfaced as an ApiResponse error for this frame. -/
def mobile_decode_payload (hdr : MobileHeader) (payload_buf : List Nat)
    (lz4 : List Nat → Nat → Except String (List Nat))
    (readVal : List Nat → Except String MpValue) :
    Except Error (Option Response) :=
  if hdr.payloadLen = 0 then
    .ok (some { ver := hdr.ver, cmd := hdr.cmd, seq := hdr.seq,
                opcode := hdr.opcode, payload := .jnull })
  else
    match (if hdr.compFlag ≠ 0 then
             match lz4 payload_buf (5 * 1024 * 1024) with
             | .ok bytes => .ok bytes
             | .error d =>
                 .error (Error.apiResponse (.jobj
                   [("error", .jstr "LZ4 error"), ("details", .jstr d)]))
           else .ok payload_buf : Except Error (List Nat)) with
    | .error e => .error e
    | .ok final_payload_bytes =>
      if final_payload_bytes.isEmpty then
        .ok (some { ver := hdr.ver, cmd := hdr.cmd, seq := hdr.seq,
                    opcode := hdr.opcode, payload := .jnull })
      else
        match readVal final_payload_bytes with
        | .error d =>
            .error (Error.apiResponse (.jobj
              [("error", .jstr "MsgPack decode error (rmpv)"),
               ("details", .jstr d)]))
        | .ok mp_value =>
            .ok (some { ver := hdr.ver, cmd := hdr.cmd, seq := hdr.seq,
                        opcode := hdr.opcode,
                        payload := msgpack_to_json mp_value })

/-! ## Web transport reader (src/transport/web.rs lines 58-76) -/

/-- WebReader::next_message: `frame` is the next WebSocket frame, if any,
with the serde_json parse of its body given as an oracle result. A closed
stream is end-of-stream; a JSON decode failure is surfaced as an
ApiResponse error carrying the serde error string, without closing the
socket at this layer. -/
def web_next_message (frame : Option (Except String Response)) :
    Except Error (Option Response) :=
  match frame with
  | none => .ok none
  | some (.ok resp) => .ok (some resp)
  | some (.error d) => .error (.apiResponse (.jobj [("error", .jstr d)]))

/-! ## Error display (src/errors.rs lines 38-54) -/

/-- Compact serde_json rendering of a payload tree, used by the Display
impl for Error::ApiResponse. String escaping inside rendered strings is not
modelled; no claim depends on it. -/
def JValue.render : JValue → String
  | .jnull => "null"
  | .jbool b => toString b
  | .jnum n => toString n
  | .jstr s => "\"" ++ s ++ "\""
  | .jarr xs =>
      "[" ++ String.intercalate "," (xs.attach.map (fun x => JValue.render x.1)) ++ "]"
  | .jobj fields =>
      "\x7b" ++ String.intercalate ","
        (fields.attach.map
          (fun kv => "\"" ++ kv.1.1 ++ "\":" ++ JValue.render kv.1.2)) ++ "\x7d"
decreasing_by
  · simp_wf
    have h := List.sizeOf_lt_of_mem x.2
    omega
  · simp_wf
    have h := List.sizeOf_lt_of_mem kv.2
    have h2 : sizeOf kv.1.2 < sizeOf kv.1 := by
      obtain ⟨⟨a, b⟩, hm⟩ := kv
      simp
    omega

/-- Debug rendering of a std Duration as produced by `{:?}` for the whole-
second millisecond values this client displays (the only displayed duration
is DEFAULT_TIMEOUT = 10000 ms, printed as "10s"). -/
def durationDebug (ms : Nat) : String :=
  if ms % 1000 = 0 then toString (ms / 1000) ++ "s" else toString ms ++ "ms"

/-- Display impl for Error (src/errors.rs lines 38-54). -/
def Error.display : Error → String
  | .notConnected => "Клиент не подключен"
  | .connectionFailed d => "Ошибка подключения: " ++ d
  | .connectionClosed d => "Соединение оборвано: " ++ d
  | .sendFailed d => "Ошибка отправки: " ++ d
  | .parseError d => "Ошибка парсинга JSON: " ++ d
  | .requestTimeout ms => "Таймаут запроса: " ++ durationDebug ms
  | .apiResponse payload => "Ошибка API: " ++ payload.render
  | .oneshotRecvError => "Ошибка получения ответа: channel closed"
  | .ioError d => "Ошибка I/O: " ++ d
  | .tauriError d => "Ошибка Tauri: " ++ d
  | .otherError d => "Неизвестная ошибка: " ++ d

/-! ## Reader task (src/lib.rs lines 289-338) -/

/-- Observable effect of one read_task loop iteration on the reader-owned
state. `completions` lists the (slot id, delivered result) pairs sent
through oneshot senders this iteration; `published` is the frame forwarded
to the broadcast events channel when no slot matched; `breaks` is whether
the loop exits after this iteration. -/
structure ReadStepResult where
  writer : Bool
  pending : List (Nat × Nat)
  completions : List (Nat × Except Error Response)
  published : Option Response
  breaks : Bool
deriving Repr

/-- One iteration of read_task on the next_message result (src/lib.rs lines
296-337). A frame completes the matching pending slot or is published as an
event, and the loop continues. End-of-stream (Ok(None)) and any reader
error both clear the writer, drain every pending slot with a
ConnectionClosed error (the EOF branch with the fixed message, the error
branch with the error's display string), and break out of the loop. -/
def read_task_step (writer : Bool) (pending : List (Nat × Nat))
    (msg : Except Error (Option Response)) : ReadStepResult :=
  match msg with
  | .ok (some resp) =>
      match pending.lookup resp.seq with
      | some slot =>
          { writer := writer,
            pending := pending.filter (fun kv => kv.1 ≠ resp.seq),
            completions := [(slot, .ok resp)],
            published := none, breaks := false }
      | none =>
          { writer := writer, pending := pending, completions := [],
            published := some resp, breaks := false }
  | .ok none =>
      { writer := false, pending := [],
        completions := pending.map
          (fun kv => (kv.2, .error (.connectionClosed "Соединение закрыто"))),
        published := none, breaks := true }
  | .error e =>
      { writer := false, pending := [],
        completions := pending.map
          (fun kv => (kv.2, .error (.connectionClosed e.display))),
        published := none, breaks := true }

/-! ## check_code token handling (src/api/auth.rs lines 26-48) -/

/-- Which session-state token field check_code writes after a successful
response. -/
inductive TokenStore where
  | storeTempToken (t : String)
  | storeToken (t : String)
  | noStore
deriving Repr

/-- Token-storing epilogue of MaxClient::check_code (src/api/auth.rs lines
38-45). The `token` lookup is option-chained, but the `tokenType` lookup is
followed by `.unwrap()`: when a string token is present and `tokenType` is
absent or not a string, the code panics, modelled as `none`. -/
def check_code_store (payload : JValue) : Option TokenStore :=
  match (payload.getField "token").bind JValue.asStr with
  | some t =>
      match (payload.getField "tokenType").bind JValue.asStr with
      | some tt =>
          if tt = "REGISTER" then some (.storeTempToken t)
          else some (.storeToken t)
      | none => none
  | none => some .noStore

/-! ## Telemetry task (src/api/telemetry.rs lines 163-215) -/

/-- Telemetry event as emitted on the wire: the `event` field is either
"COLD_START" or "NAV"; for NAV the screen names the event carries are
recorded. -/
inductive TelemetryEvent where
  | coldStart
  | nav (screenFrom screenTo : String)
deriving Repr, DecidableEq

/-- Environment of one steady-loop iteration of the telemetry task. Once
the readiness poll has seen `user_id` set, the only writer that clears it
is disconnect() (src/lib.rs line 202), which first fires the shutdown
sender (src/lib.rs lines 193-194) — the very channel whose receiver the
task's select polls (subscribed at spawn, src/api/telemetry.rs line 167),
and whose queued message (or closed-state, after a later connect dropped
the old sender at src/lib.rs line 148) makes that select branch ready
immediately. So the realizable iteration outcomes are: the select resolves
the shutdown branch (break); the sleep completes but is_connected is false
(break); the sleep completes, the connectivity check passes, but a
disconnect lands before send_random_navigation_internal takes the lock —
the NAV is skipped (user_id is none, telemetry.rs lines 99-102) and the
next select's shutdown branch is already ready, so no further event is ever
emitted; or one NAV event is emitted and `current_screen` advances to the
sampled neighbour. -/
structure LoopIter where
  shutdownDuringSleep : Bool
  connectedAfterSleep : Bool
  disconnectBeforeNav : Bool
  nextScreen : String
deriving Repr

/-- Environment of one telemetry-task lifetime: whether shutdown fires
during the initial readiness poll, whether a disconnect lands between the
readiness poll and send_cold_start_internal taking the lock (clearing
user_id and queueing shutdown, see `LoopIter`), and the per-iteration
environment of the steady loop. -/
structure TelemetryScript where
  shutdownBeforeStart : Bool
  disconnectBeforeColdStart : Bool
  iterations : List LoopIter
deriving Repr

/-- Steady NAV loop of the telemetry task (src/api/telemetry.rs lines
195-212, with send_random_navigation_internal at lines 95-138): each
iteration exits on shutdown or on a disconnected client; a disconnect
landing after the connectivity check skips the NAV (user_id is none) and
the queued shutdown stops the loop at its next select, so nothing further
is emitted; otherwise one NAV event from the current screen to the sampled
neighbour is emitted and `current_screen` advances. -/
def telemetry_loop (screen : String) : List LoopIter → List TelemetryEvent
  | [] => []
  | it :: rest =>
      if it.shutdownDuringSleep then []
      else if !it.connectedAfterSleep then []
      else if it.disconnectBeforeNav then []
      else .nav screen it.nextScreen :: telemetry_loop it.nextScreen rest

/-- Events emitted over one lifetime of the telemetry task (src/api/
telemetry.rs lines 174-214): shutdown during the readiness poll ends the
task with nothing emitted; a disconnect between the readiness poll and
send_cold_start_internal (lines 64-92) makes the cold start return without
emitting (user_id is none) and the steady loop's first select then resolves
the already-queued shutdown, again emitting nothing; otherwise exactly one
COLD_START is emitted and the steady loop follows. `initScreen` is
`current_screen` when the loop starts. -/
def telemetry_trace (initScreen : String) (sc : TelemetryScript) :
    List TelemetryEvent :=
  if sc.shutdownBeforeStart then []
  else if sc.disconnectBeforeColdStart then []
  else .coldStart :: telemetry_loop initScreen sc.iterations

/-! ## Concrete sessions used as test inputs -/

/-- Concrete connected session with an outstanding request (seq 3, slot 0)
and both tokens set. -/
def c1State : ClientState :=
  { writer := true, seq := 3, tempToken := some "R0", token := some "T1",
    pending := [(3, 0)], shutdownPresent := true, userId := some 42,
    actionId := 0, sessionId := 1, deviceId := some "dev",
    mtInstance := some "mt", currentScreen := "chats_list_tab" }

/-- Concrete authenticated-but-disconnected session about to lazily
reconnect. -/
def c10State : ClientState :=
  { writer := false, seq := 5, tempToken := some "tt", token := some "T1",
    pending := [], shutdownPresent := false, userId := some 42,
    actionId := 7, sessionId := 100, deviceId := some "dev",
    mtInstance := some "mt", currentScreen := "chats_list_tab" }

/-! ## Shared helper lemmas -/

/-- Filtering out a key leaves no binding with that key. -/
lemma countP_filter_ne_eq_zero (l : List (Nat × Nat)) (k : Nat) :
    (l.filter (fun kv => kv.1 ≠ k)).countP (fun kv => kv.1 = k) = 0 := by
  induction l with
  | nil => rfl
  | cons hd tl ih =>
      by_cases h : hd.1 = k
      · simp [List.filter_cons, h, ih]
      · simp [List.filter_cons, h, List.countP_cons, ih]

/-! ## C1 — disconnect -/

/-- C1 counterexample: after disconnect() the temp_token is NOT cleared
(here it is still "R0"), and a caller awaiting an outstanding request
receives OneshotRecvError (its oneshot sender was dropped by
pending.clear()), not a ConnectionClosed error. -/
theorem disconnect_keeps_temp_token_cex :
    (disconnect c1State 2).state.tempToken ≠ none ∧
    await_slot .dropped = .error .oneshotRecvError ∧
    await_slot .dropped ≠ .error (.connectionClosed "Соединение закрыто") := by
  refine ⟨by simp [disconnect, c1State], rfl, by simp [await_slot]⟩

/-- C1 (amended): after disconnect(now) the shutdown signal has been fired
(whenever the sender was present), the writer is dropped, pending is empty
and every previously outstanding caller receives an OneshotRecvError (its
slot's sender was dropped), token and user_id are cleared, seq is reset to
0 and session_id is refreshed; temp_token is left unchanged. -/
theorem disconnect_resets_session (s : ClientState) (now : Int) :
    (disconnect s now).shutdownFired = s.shutdownPresent ∧
    (disconnect s now).state.writer = false ∧
    (disconnect s now).state.pending = [] ∧
    (disconnect s now).state.token = none ∧
    (disconnect s now).state.userId = none ∧
    (disconnect s now).state.seq = 0 ∧
    (disconnect s now).state.sessionId = now ∧
    (disconnect s now).state.tempToken = s.tempToken ∧
    (disconnect s now).droppedSlots = s.pending ∧
    await_slot .dropped = .error .oneshotRecvError := by
  refine ⟨rfl, rfl, rfl, rfl, rfl, rfl, rfl, rfl, rfl, rfl⟩

/-! ## C4 — send_frame reconnect decision -/

/-- C4 counterexample: with no writer and no device identifiers, send_frame
fails with ConnectionFailed("Device ID not set"), not with the NotConnected
error the claim names. -/
theorem missing_device_error_kind_cex :
    send_frame_decision false none none =
      .failWithoutSending (.connectionFailed "Device ID not set") ∧
    send_frame_decision false none none ≠
      .failWithoutSending .notConnected := by
  refine ⟨rfl, by simp [send_frame_decision]⟩

/-- C4 (amended): when send_frame runs with no writer installed, it
performs exactly one inline reconnect with is_mobile = true before sending
if both device_id and mt_instance are stored; if either identifier is
absent it fails with ConnectionFailed("Device ID not set") and sends
nothing; with a writer installed it sends directly. -/
theorem send_frame_reconnect_spec (deviceId mtInstance : Option String) :
    (∀ id mt, deviceId = some id → mtInstance = some mt →
       send_frame_decision false deviceId mtInstance =
         .reconnectThenSend id mt true) ∧
    (deviceId = none ∨ mtInstance = none →
       send_frame_decision false deviceId mtInstance =
         .failWithoutSending (.connectionFailed "Device ID not set")) ∧
    send_frame_decision true deviceId mtInstance = .sendDirect := by
  refine ⟨fun id mt hid hmt => ?_, fun h => ?_, rfl⟩
  · subst hid; subst hmt; rfl
  · rcases h with h | h
    · subst h; cases mtInstance <;> rfl
    · subst h; cases deviceId <;> rfl

/-- C4 witness: the reconnect and the failure branches at concrete
identifiers. -/
theorem send_frame_reconnect_spec_witness :
    send_frame_decision false (some "dev1") (some "mt1") =
      .reconnectThenSend "dev1" "mt1" true ∧
    send_frame_decision false none (some "mt1") =
      .failWithoutSending (.connectionFailed "Device ID not set") := by
  exact ⟨(send_frame_reconnect_spec (some "dev1") (some "mt1")).1 "dev1" "mt1" rfl rfl,
         (send_frame_reconnect_spec none (some "mt1")).2.1 (Or.inl rfl)⟩

/-! ## C5 — check_code token handling -/

/-- C5: check_code's field lookups are option-returning, and the token is
routed by tokenType — but when the payload carries a string token while
tokenType is absent (or not a string), the `.unwrap()` on the tokenType
lookup panics (modelled as `none`), contradicting the never-panic rule and
the documented store-as-token behaviour. The other conjuncts evaluate the
documented branches: tokenType "REGISTER" stores temp_token, any other
string tokenType stores token, and a payload without a token stores
nothing. -/
theorem check_code_token_type_unwrap_panics :
    check_code_store (.jobj [("token", .jstr "T0")]) = none ∧
    check_code_store
      (.jobj [("token", .jstr "R1"), ("tokenType", .jstr "REGISTER")]) =
      some (.storeTempToken "R1") ∧
    check_code_store
      (.jobj [("token", .jstr "T1"), ("tokenType", .jstr "LOGIN")]) =
      some (.storeToken "T1") ∧
    check_code_store (.jobj [("tokenType", .jstr "LOGIN")]) =
      some .noStore := by
  refine ⟨rfl, rfl, rfl, rfl⟩

/-! ## C6 — request timeout -/

/-- C6: when the response never arrives, the timeout branch of
send_and_wait returns RequestTimeout carrying the default 10000 ms (10 s)
timeout and removes the request's slot from pending: afterwards pending
holds no binding for that seq (no stale entry). -/
theorem request_timeout_spec (pending : List (Nat × Nat)) (seq : Nat) :
    (timeout_branch pending seq).2 = .requestTimeout 10000 ∧
    DEFAULT_TIMEOUT_MS = 10000 ∧
    ((timeout_branch pending seq).1.countP (fun kv => kv.1 = seq)) = 0 := by
  exact ⟨rfl, rfl, countP_filter_ne_eq_zero pending seq⟩

/-! ## C7 — mobile header round trip -/

/-- C7: for every request whose payload encodes to at most 0xFFFFFF bytes,
MobileWriter::send succeeds and MobileReader's parse of the 10 header bytes
it produced yields the original ver, the original cmd (the u8 value
round-trips through the u16 widening and u8 narrowing), seq modulo 2 ^ 8,
the original opcode and the payload length, with comp_flag 0; a payload
over 0xFFFFFF bytes makes send fail fast with SendFailed before producing
any bytes. -/
theorem mobile_header_roundtrip (r : Request) (pb : List Nat)
    (hver : r.ver < 2 ^ 8) (hcmd : r.cmd < 2 ^ 8) (hop : r.opcode < 2 ^ 16)
    (hlen : pb.length ≤ 0xFFFFFF) :
    (∃ frame, mobile_send_bytes r pb = .ok frame ∧
       parse_mobile_header (frame.take 10) =
         some { ver := r.ver, cmd := r.cmd % 2 ^ 8, seq := r.seq % 2 ^ 8,
                opcode := r.opcode, compFlag := 0,
                payloadLen := pb.length } ∧
       r.cmd % 2 ^ 8 = r.cmd) ∧
    (∀ pb2 : List Nat, 0xFFFFFF < pb2.length →
       mobile_send_bytes r pb2 = .error (.sendFailed "Payload too large")) := by
  constructor
  · refine ⟨[r.ver % 2 ^ 8] ++ be16 r.cmd ++ [r.seq % 2 ^ 8] ++ be16 r.opcode
        ++ be32 (pb.length % 2 ^ 24) ++ pb, ?_, ?_, Nat.mod_eq_of_lt hcmd⟩
    · simp only [mobile_send_bytes]
      rw [if_neg (by omega)]
    · have hv : r.ver % 2 ^ 8 = r.ver := Nat.mod_eq_of_lt hver
      have hlen2 : pb.length % 2 ^ 24 = pb.length := Nat.mod_eq_of_lt (by omega)
      simp only [be16, be32, List.cons_append, List.nil_append, List.take,
        parse_mobile_header, Option.some.injEq, MobileHeader.mk.injEq]
      and_intros <;> first | trivial | omega
  · intro pb2 h2
    simp only [mobile_send_bytes]
    rw [if_pos (by omega)]

/-- C7 witness: a concrete ping request with a 3-byte payload round-trips,
and a 0x1000000-byte payload is rejected. -/
theorem mobile_header_roundtrip_witness :
    (∃ frame,
       mobile_send_bytes
         { ver := 11, cmd := 0, seq := 300, opcode := 1, payload := .jnull }
         [130, 194, 192] = .ok frame ∧
       parse_mobile_header (frame.take 10) =
         some { ver := 11, cmd := 0 % 2 ^ 8, seq := 300 % 2 ^ 8, opcode := 1,
                compFlag := 0, payloadLen := 3 } ∧
       (0 : Nat) % 2 ^ 8 = 0) ∧
    mobile_send_bytes
      { ver := 11, cmd := 0, seq := 300, opcode := 1, payload := .jnull }
      (List.replicate 16777216 0) = .error (.sendFailed "Payload too large") := by
  refine ⟨(mobile_header_roundtrip _ [130, 194, 192] (by decide) (by decide)
            (by decide) (by decide)).1,
          (mobile_header_roundtrip
            { ver := 11, cmd := 0, seq := 300, opcode := 1, payload := .jnull }
            [] (by decide) (by decide) (by decide) (by decide)).2
            (List.replicate 16777216 0)
            (by rw [List.length_replicate]; omega)⟩

/-! ## C8 — MessagePack integer normalization -/

/-- C8: for every MessagePack integer value (all of which lie in the u64 or
i64 range), msgpack_to_json produces a JSON number when the magnitude is at
most 2 ^ 53 − 1 and the exact decimal string when the magnitude exceeds
2 ^ 53 − 1. -/
theorem msgpack_integer_normalization (v : Int)
    (hlo : -(2 ^ 63) ≤ v) (hhi : v < 2 ^ 64) :
    (v.natAbs ≤ 2 ^ 53 - 1 →
       msgpack_to_json (.integer v) = .jnum v) ∧
    (2 ^ 53 - 1 < v.natAbs →
       msgpack_to_json (.integer v) = .jstr (toString v)) := by
  constructor
  · intro hsmall
    simp only [msgpack_to_json, MAX_SAFE_INT]
    split_ifs with h1 h2 h3 h4 <;> first | rfl | omega
  · intro hbig
    simp only [msgpack_to_json, MAX_SAFE_INT]
    split_ifs with h1 h2 h3 h4 <;> first | rfl | omega

/-- C8 witness: 2 ^ 53 − 1 stays a JSON number while 2 ^ 53 and the
negative value −2 ^ 53 become decimal strings. -/
theorem msgpack_integer_normalization_witness :
    msgpack_to_json (.integer 9007199254740991) = .jnum 9007199254740991 ∧
    msgpack_to_json (.integer 9007199254740992) =
      .jstr "9007199254740992" ∧
    msgpack_to_json (.integer (-9007199254740992)) =
      .jstr "-9007199254740992" := by
  refine ⟨(msgpack_integer_normalization 9007199254740991 (by decide)
             (by decide)).1 (by decide),
          ?_, ?_⟩
  · rw [(msgpack_integer_normalization 9007199254740992 (by decide)
          (by decide)).2 (by decide)]
    rfl
  · rw [(msgpack_integer_normalization (-9007199254740992) (by decide)
          (by decide)).2 (by decide)]
    rfl

/-! ## C2 — per-frame decode errors and the reader loop -/

/-- C2 counterexample: an LZ4 failure on an inbound compressed frame is
surfaced by next_message as an ApiResponse error, and read_task then tears
the session down — the writer is cleared, the pending table is drained and
the loop breaks — contrary to the claim that the session is not
terminated. -/
theorem lz4_failure_teardown_cex :
    mobile_decode_payload
      { ver := 11, cmd := 0, seq := 1, opcode := 19, compFlag := 1,
        payloadLen := 3 }
      [1, 2, 3] (fun _ _ => .error "OffsetOutOfBounds")
      (fun _ => .error "unused") =
      .error (.apiResponse (.jobj [("error", .jstr "LZ4 error"),
        ("details", .jstr "OffsetOutOfBounds")])) ∧
    (read_task_step true [(1, 7)]
      (.error (.apiResponse (.jobj [("error", .jstr "LZ4 error"),
        ("details", .jstr "OffsetOutOfBounds")])))).writer = false ∧
    (read_task_step true [(1, 7)]
      (.error (.apiResponse (.jobj [("error", .jstr "LZ4 error"),
        ("details", .jstr "OffsetOutOfBounds")])))).pending = [] ∧
    (read_task_step true [(1, 7)]
      (.error (.apiResponse (.jobj [("error", .jstr "LZ4 error"),
        ("details", .jstr "OffsetOutOfBounds")])))).breaks = true := by
  refine ⟨rfl, rfl, rfl, rfl⟩

/-- C2 (amended): a mobile frame whose payload fails to decode (LZ4
failure, including a decompressed size over the 5 MiB max, or a malformed
MessagePack body) surfaces an ApiResponse error naming that frame's
failure, and the web transport likewise surfaces per-frame JSON decode
errors as ApiResponse — but read_task treats every reader error as fatal:
it clears the writer, completes all pending requests with ConnectionClosed
and exits, so the session IS terminated. -/
theorem frame_decode_errors_are_fatal
    (hdr hdr2 : MobileHeader) (buf bytes : List Nat) (d d2 : String)
    (readVal : List Nat → Except String MpValue)
    (writer : Bool) (pending : List (Nat × Nat)) (e : Error)
    (hcomp : hdr.compFlag ≠ 0) (hlen : hdr.payloadLen ≠ 0)
    (hcomp2 : hdr2.compFlag ≠ 0) (hlen2 : hdr2.payloadLen ≠ 0)
    (hbytes : bytes ≠ []) :
    mobile_decode_payload hdr buf (fun _ _ => .error d) readVal =
      .error (.apiResponse (.jobj [("error", .jstr "LZ4 error"),
        ("details", .jstr d)])) ∧
    mobile_decode_payload hdr2 buf (fun _ _ => .ok bytes)
      (fun _ => .error d2) =
      .error (.apiResponse (.jobj
        [("error", .jstr "MsgPack decode error (rmpv)"),
         ("details", .jstr d2)])) ∧
    web_next_message (some (.error d)) =
      .error (.apiResponse (.jobj [("error", .jstr d)])) ∧
    (read_task_step writer pending (.error e)).writer = false ∧
    (read_task_step writer pending (.error e)).pending = [] ∧
    (read_task_step writer pending (.error e)).breaks = true ∧
    (read_task_step writer pending (.error e)).completions =
      pending.map (fun kv => (kv.2, .error (.connectionClosed e.display))) := by
  refine ⟨?_, ?_, rfl, rfl, rfl, rfl, rfl⟩
  · simp [mobile_decode_payload, hlen, hcomp]
  · simp [mobile_decode_payload, hlen2, hcomp2, hbytes]

/-- C2 witness: the fatal teardown at a concrete compressed frame, a
concrete malformed MessagePack frame, a concrete web JSON error and a
concrete pending table. -/
theorem frame_decode_errors_are_fatal_witness :
    mobile_decode_payload
      { ver := 11, cmd := 0, seq := 2, opcode := 19, compFlag := 2,
        payloadLen := 4 }
      [9, 9, 9, 9] (fun _ _ => .error "ExpectedAnotherByte")
      (fun _ => .error "unused") =
      .error (.apiResponse (.jobj [("error", .jstr "LZ4 error"),
        ("details", .jstr "ExpectedAnotherByte")])) ∧
    mobile_decode_payload
      { ver := 11, cmd := 0, seq := 2, opcode := 19, compFlag := 2,
        payloadLen := 4 }
      [9, 9, 9, 9] (fun _ _ => .ok [5]) (fun _ => .error "invalid marker") =
      .error (.apiResponse (.jobj
        [("error", .jstr "MsgPack decode error (rmpv)"),
         ("details", .jstr "invalid marker")])) ∧
    web_next_message (some (.error "ExpectedAnotherByte")) =
      .error (.apiResponse (.jobj [("error", .jstr "ExpectedAnotherByte")])) ∧
    (read_task_step true [(3, 0)] (.error (.otherError "x"))).writer = false ∧
    (read_task_step true [(3, 0)] (.error (.otherError "x"))).pending = [] ∧
    (read_task_step true [(3, 0)] (.error (.otherError "x"))).breaks = true ∧
    (read_task_step true [(3, 0)] (.error (.otherError "x"))).completions =
      [(3, 0)].map (fun kv =>
        (kv.2, .error (.connectionClosed (Error.otherError "x").display))) := by
  exact frame_decode_errors_are_fatal
    { ver := 11, cmd := 0, seq := 2, opcode := 19, compFlag := 2,
      payloadLen := 4 }
    { ver := 11, cmd := 0, seq := 2, opcode := 19, compFlag := 2,
      payloadLen := 4 }
    [9, 9, 9, 9] [5] "ExpectedAnotherByte" "invalid marker"
    (fun _ => .error "unused") true [(3, 0)] (.otherError "x")
    (by decide) (by decide) (by decide) (by decide) (by decide)

/-! ## C3 — sequence allocation and the wire -/

/-- Sequence numbers handed out by consecutive send_and_wait prologues:
call i (0-based, in lock-acquisition order) gets seq + 1 + i. -/
lemma alloc_seq_many_seq_formula (s : ClientState)
    (calls : List (Nat × Nat × JValue × Nat)) :
    ((alloc_seq_many s calls).2.map Request.seq) =
      (List.range calls.length).map (fun i => s.seq + 1 + i) := by
  induction calls generalizing s with
  | nil => simp [alloc_seq_many]
  | cons c rest ih =>
      obtain ⟨slot, opcode, payload, cmd⟩ := c
      simp only [alloc_seq_many, alloc_seq, List.length_cons, List.map_cons]
      rw [ih, List.range_succ_eq_map]
      simp only [List.map_cons, List.map_map]
      refine congrArg₂ _ (by omega) (congrArg₂ _ ?_ rfl)
      funext i
      simp only [Function.comp_apply]
      omega

/-- C3 counterexample: within one session the 1st and the 257th allocated
sequence numbers are 1 and 257, yet the mobile wire frames for two
otherwise-identical requests with seq 1 and seq 257 are byte-for-byte
identical — the sequence numbers placed on the mobile wire are not
distinct. -/
theorem mobile_wire_seq_collision_cex :
    ((alloc_seq_many (ClientState.new 0)
        (List.replicate 257 (0, 64, JValue.jnull, 0))).2.map
          Request.seq).get? 0 = some 1 ∧
    ((alloc_seq_many (ClientState.new 0)
        (List.replicate 257 (0, 64, JValue.jnull, 0))).2.map
          Request.seq).get? 256 = some 257 ∧
    mobile_send_bytes
      { ver := 11, cmd := 0, seq := 1, opcode := 64, payload := .jnull }
      [192] =
    mobile_send_bytes
      { ver := 11, cmd := 0, seq := 257, opcode := 64, payload := .jnull }
      [192] ∧
    (1 : Nat) ≠ 257 := by
  refine ⟨?_, ?_, rfl, by decide⟩
  · rw [alloc_seq_many_seq_formula, List.length_replicate, List.get?_map,
      List.get?_range (by omega)]
    rfl
  · rw [alloc_seq_many_seq_formula, List.length_replicate, List.get?_map,
      List.get?_range (by omega)]
    rfl

/-- C3 (amended): the sequence numbers allocated to send_and_wait calls
within one session are distinct and strictly increasing, in the order the
calls acquire the session lock, and the frames handed to either transport
writer carry them in full; but the mobile wire header carries only the low
8 bits (seq mod 256) of each, so the on-wire mobile sequence bytes repeat
once more than 256 requests are issued. -/
theorem seq_allocation_monotone (s : ClientState)
    (calls : List (Nat × Nat × JValue × Nat)) :
    (((alloc_seq_many s calls).2.map Request.seq).Pairwise (· < ·)) ∧
    ((alloc_seq_many s calls).2.map Request.seq).Nodup ∧
    (∀ (r : Request) (pb : List Nat), pb.length ≤ 0xFFFFFF →
       ∃ frame, mobile_send_bytes r pb = .ok frame ∧
         frame.get? 3 = some (r.seq % 2 ^ 8)) := by
  have hpair : ((alloc_seq_many s calls).2.map Request.seq).Pairwise (· < ·) := by
    rw [alloc_seq_many_seq_formula]
    exact (List.pairwise_lt_range calls.length).map _ (fun a b h => by omega)
  refine ⟨hpair, List.Pairwise.imp (fun h => Nat.ne_of_lt h) hpair, ?_⟩
  intro r pb hlen
  refine ⟨[r.ver % 2 ^ 8] ++ be16 r.cmd ++ [r.seq % 2 ^ 8] ++ be16 r.opcode
      ++ be32 (pb.length % 2 ^ 24) ++ pb, ?_, ?_⟩
  · simp only [mobile_send_bytes]
    rw [if_neg (by omega)]
  · simp [be16, be32]

/-- C3 witness: the mobile frame for a concrete request with seq 257
carries wire byte 257 mod 256 = 1 at header offset 3. -/
theorem seq_allocation_monotone_witness :
    ∃ frame,
      mobile_send_bytes
        { ver := 11, cmd := 0, seq := 257, opcode := 64, payload := .jnull }
        [192] = .ok frame ∧
      frame.get? 3 = some (257 % 2 ^ 8) :=
  (seq_allocation_monotone (ClientState.new 0) []).2.2
    { ver := 11, cmd := 0, seq := 257, opcode := 64, payload := .jnull }
    [192] (by decide)

/-! ## C9 — telemetry COLD_START ordering -/

/-- The steady loop of the telemetry task emits only NAV events. -/
lemma coldStart_not_mem_loop (screen : String) (its : List LoopIter) :
    TelemetryEvent.coldStart ∉ telemetry_loop screen its := by
  induction its generalizing screen with
  | nil => simp [telemetry_loop]
  | cons it rest ih =>
      simp only [telemetry_loop]
      split_ifs with h1 h2 h3
      · simp
      · simp
      · simp
      · simpa using ih it.nextScreen

/-- C9 counterexample: a telemetry-task lifetime cancelled by shutdown
during the initial readiness poll (a disconnect() while the task is still
waiting for connection and user_id, src/api/telemetry.rs lines 182-188)
returns before send_cold_start_internal and emits no events at all — zero
COLD_START events, not exactly one. -/
theorem telemetry_zero_cold_start_cex :
    telemetry_trace "chats_list_tab"
      { shutdownBeforeStart := true, disconnectBeforeColdStart := false,
        iterations := [{ shutdownDuringSleep := false,
                         connectedAfterSleep := true,
                         disconnectBeforeNav := false,
                         nextScreen := "chat_screen" }] } = [] ∧
    (telemetry_trace "chats_list_tab"
      { shutdownBeforeStart := true, disconnectBeforeColdStart := false,
        iterations := [{ shutdownDuringSleep := false,
                         connectedAfterSleep := true,
                         disconnectBeforeNav := false,
                         nextScreen := "chat_screen" }] }).count .coldStart
      ≠ 1 := by
  refine ⟨rfl, by decide⟩

/-- C9 (amended): in each lifetime of the telemetry task, at most one
COLD_START event is emitted and no NAV event ever precedes it: every
lifetime either emits nothing (shutdown, or a disconnect before the cold
start — which clears user_id only after firing the shutdown signal the
task's select polls, so the steady loop breaks before any NAV), or begins
with the single COLD_START followed only by NAV events. -/
theorem telemetry_cold_start_spec (initScreen : String)
    (sc : TelemetryScript) :
    (telemetry_trace initScreen sc).count .coldStart ≤ 1 ∧
    ((telemetry_trace initScreen sc).drop 1).count .coldStart = 0 ∧
    (telemetry_trace initScreen sc = [] ∨
      (telemetry_trace initScreen sc).head? = some .coldStart) := by
  have hloop : ∀ screen its,
      (telemetry_loop screen its).count TelemetryEvent.coldStart = 0 :=
    fun screen its => List.count_eq_zero.mpr (coldStart_not_mem_loop screen its)
  unfold telemetry_trace
  split_ifs with h1 h2
  · simp
  · simp
  · refine ⟨?_, ?_, Or.inr rfl⟩
    · simp [List.count_cons, hloop initScreen sc.iterations]
    · simpa using hloop initScreen sc.iterations

/-! ## C10 — connect frame conditions -/

/-- C10 counterexample: connect() does not leave seq unchanged — the
handshake it issues through send_and_wait allocates one sequence number, so
a session entering connect with seq 5 leaves it with seq 6. -/
theorem connect_increments_seq_cex :
    c10State.seq = 5 ∧
    (connect_full c10State "dev" "mt" 200 0 .jnull).1.seq = 6 ∧
    (connect_full c10State "dev" "mt" 200 0 .jnull).1.seq ≠ c10State.seq := by
  refine ⟨rfl, rfl, by decide⟩

/-- C10 (amended): the state update connect performs under the session lock
mutates only writer, shutdown sender, device_id, mt_instance and
session_id, leaving seq, pending, token, temp_token, user_id, action_id and
current_screen unchanged; over the whole of connect the handshake request
additionally increments seq exactly once (it is not reset), and token,
temp_token, user_id, action_id and current_screen are still unchanged — so
the lazy reconnect inside request preserves stored authentication tokens
and continues the sequence counter rather than restarting it at 0. -/
theorem connect_preserves_auth_state (s : ClientState) (id mt : String)
    (now : Int) (slot : Nat) (hp : JValue) :
    (connect_state_update s id mt now).seq = s.seq ∧
    (connect_state_update s id mt now).pending = s.pending ∧
    (connect_state_update s id mt now).token = s.token ∧
    (connect_state_update s id mt now).tempToken = s.tempToken ∧
    (connect_state_update s id mt now).userId = s.userId ∧
    (connect_state_update s id mt now).actionId = s.actionId ∧
    (connect_state_update s id mt now).currentScreen = s.currentScreen ∧
    (connect_state_update s id mt now).deviceId = some id ∧
    (connect_state_update s id mt now).mtInstance = some mt ∧
    (connect_state_update s id mt now).sessionId = now ∧
    (connect_state_update s id mt now).writer = true ∧
    (connect_full s id mt now slot hp).1.seq = s.seq + 1 ∧
    (connect_full s id mt now slot hp).1.token = s.token ∧
    (connect_full s id mt now slot hp).1.tempToken = s.tempToken ∧
    (connect_full s id mt now slot hp).1.userId = s.userId ∧
    (connect_full s id mt now slot hp).1.actionId = s.actionId ∧
    (connect_full s id mt now slot hp).1.currentScreen = s.currentScreen ∧
    (connect_full s id mt now slot hp).2.seq = s.seq + 1 := by
  refine ⟨rfl, rfl, rfl, rfl, rfl, rfl, rfl, rfl, rfl, rfl, rfl,
          rfl, rfl, rfl, rfl, rfl, rfl, rfl⟩

end Rumax
